import Mathlib

/-!
# Verification of the multi-agent orchestration and handoff-routing core

This development embeds, as executable Lean definitions, the routing and
context-management logic of the agents-sdk-from-zero repository:

* the `SmartLifeContext` and `AdvancedContext` classes of
  `modules/01_agents/05_immutable_context.ipynb` (translated directly from
  the Python source), and
* the orchestration core (RoutingContext, AgentRegistry, EscalationTracker,
  StrategySelector, HandoffExecutor).  The orchestration core's executable
  source (the helpdesk project's `main.py` and the handoff example scripts)
  is not part of the available source tree — only its README descriptions
  are — so those components are modelled from the specification text, as
  marked in each doc comment.

Theorems about the embedded definitions follow the definitions.
-/

/-! ## Part 1: contexts from `modules/01_agents/05_immutable_context.ipynb` -/

/-- Translated from `SmartLifeContext.__init__` in
`modules/01_agents/05_immutable_context.ipynb`.  Python's `datetime`
timestamp is represented by an abstract `Nat` clock value; `study_topics`
(a `dict[str, int]`) is an association list in insertion order. -/
structure SmartLifeContext where
  messagesCount : Nat
  moodHistory : List String
  currentMood : String
  studyTopics : List (String × Nat)
  taskQueue : List String
  completedTasks : List String
  lastUpdated : Nat
  deriving DecidableEq, Repr

/-- Translated from `SmartLifeContext.__init__`: all collections empty,
mood "neutral", timestamp taken as a parameter (Python uses
`datetime.now()`). -/
def SmartLifeContext.init (now : Nat) : SmartLifeContext :=
  { messagesCount := 0
    moodHistory := []
    currentMood := "neutral"
    studyTopics := []
    taskQueue := []
    completedTasks := []
    lastUpdated := now }

/-- Translated from `SmartLifeContext.complete_task`:
`if task in self.task_queue: self.task_queue.remove(task);
self.completed_tasks.append(task); self.last_updated = datetime.now();
return True` else `return False`.  Python's `list.remove` deletes the first
occurrence, which is `List.erase`.  The returned `Bool` is the Python
return value; the second component is the updated context. -/
def SmartLifeContext.complete_task (s : SmartLifeContext) (task : String)
    (now : Nat) : Bool × SmartLifeContext :=
  if task ∈ s.taskQueue then
    (true,
      { s with
        taskQueue := s.taskQueue.erase task
        completedTasks := s.completedTasks ++ [task]
        lastUpdated := now })
  else
    (false, s)

/-- Translated from `AdvancedContext.__init__` in
`modules/01_agents/05_immutable_context.ipynb`: user profiles (a
`dict[str, str]`, kept as an association list in insertion order),
conversation memory, task queue and completed tasks. -/
structure AdvancedContext where
  userProfiles : List (String × String)
  conversationMemory : List String
  taskQueue : List String
  completedTasks : List String
  deriving DecidableEq, Repr

/-- Translated from `AdvancedContext.__init__`: every field empty. -/
def AdvancedContext.init : AdvancedContext :=
  { userProfiles := [], conversationMemory := [], taskQueue := [],
    completedTasks := [] }

/-- Translated from `AdvancedContext.add_memory`:
`self.conversation_memory.append(memory)` followed by
`if len(self.conversation_memory) > 10: self.conversation_memory.pop(0)`.
`pop(0)` removes the head, which is `List.tail`. -/
def AdvancedContext.add_memory (s : AdvancedContext) (memory : String) :
    AdvancedContext :=
  if (s.conversationMemory ++ [memory]).length > 10 then
    { s with conversationMemory := (s.conversationMemory ++ [memory]).tail }
  else
    { s with conversationMemory := s.conversationMemory ++ [memory] }

/-- Translated from `AdvancedContext.add_task`:
`self.task_queue.append(task)`. -/
def AdvancedContext.add_task (s : AdvancedContext) (task : String) :
    AdvancedContext :=
  { s with taskQueue := s.taskQueue ++ [task] }

/-- Translated from `AdvancedContext.complete_task`: identical logic to
`SmartLifeContext.complete_task` but with no timestamp field. -/
def AdvancedContext.complete_task (s : AdvancedContext) (task : String) :
    Bool × AdvancedContext :=
  if task ∈ s.taskQueue then
    (true,
      { s with
        taskQueue := s.taskQueue.erase task
        completedTasks := s.completedTasks ++ [task] })
  else
    (false, s)

/-- Translated from the `update_profile` tool of the same notebook:
`ctx.context.user_profiles[key] = value` — Python dict assignment replaces
the value in place for an existing key and appends a new binding
otherwise. -/
def AdvancedContext.update_profile (s : AdvancedContext) (key value : String) :
    AdvancedContext :=
  if s.userProfiles.any (fun p => p.fst == key) then
    { s with userProfiles :=
        s.userProfiles.map (fun p => if p.fst == key then (key, value) else p) }
  else
    { s with userProfiles := s.userProfiles ++ [(key, value)] }

/-- The operations the notebook's tools expose on an `AdvancedContext`
(`remember_fact`, `add_task`, `complete_task`, `update_profile`;
`get_session_info` is read-only and omitted). -/
inductive AdvOp where
  | addMemory (memory : String)
  | addTask (task : String)
  | completeTask (task : String)
  | updateProfile (key value : String)
  deriving DecidableEq, Repr

/-- Apply one tool operation to an `AdvancedContext`. -/
def AdvancedContext.applyOp (s : AdvancedContext) : AdvOp → AdvancedContext
  | AdvOp.addMemory m => s.add_memory m
  | AdvOp.addTask t => s.add_task t
  | AdvOp.completeTask t => (s.complete_task t).snd
  | AdvOp.updateProfile k v => s.update_profile k v

/-- Apply a sequence of tool operations, left to right. -/
def AdvancedContext.applyOps (s : AdvancedContext) (ops : List AdvOp) :
    AdvancedContext :=
  ops.foldl AdvancedContext.applyOp s

/-! ## Part 2: the orchestration core

The executable source of the orchestration core (the helpdesk project's
`main.py`, and the handoff scripts of `modules/06_handoffs/`) is not in the
available source tree — only README fragments are.  The definitions below
are therefore modelled from the specification (spec.md §3–§4.5), with the
`HandoffContext` fragment of the helpdesk README fixing the field list. -/

/-- Modelled from the spec: the ordinal urgency levels of §3
(`low/normal/high/critical`), matching `QueryUrgency` of the helpdesk
project. -/
inductive Urgency where
  | low
  | normal
  | high
  | critical
  deriving DecidableEq, Repr

/-- Modelled from the spec: §3's `RoutingContext` record, whose field list
matches the helpdesk README's `HandoffContext`
(`escalation_count`, `previous_agents`, `resolution_attempts`,
`student_feedback`).  The student-type field of the README is generalised
to §3's `category`. -/
structure RoutingContext where
  category : String
  urgency : Urgency
  escalationCount : Nat
  handlerHistory : List String
  resolutionAttempts : List String
  feedback : Option String
  deriving DecidableEq, Repr

/-- Modelled from the spec: §3's lifecycle — a `RoutingContext` is created
at intake with the first handler already in `handlerHistory` (the history
"records every handler that has held the request, including the first")
and zero escalations. -/
def RoutingContext.intake (cat : String) (urg : Urgency)
    (firstHandler : String) : RoutingContext :=
  { category := cat
    urgency := urg
    escalationCount := 0
    handlerHistory := [firstHandler]
    resolutionAttempts := []
    feedback := none }

/-- The two most recent entries of `handlerHistory` (most recent first),
used by EscalationTracker's loop check (§4.2 check 3). -/
def RoutingContext.lastTwo (ctx : RoutingContext) : List String :=
  ctx.handlerHistory.reverse.take 2

/-- Modelled from the spec: §4.1's per-handler capability descriptor,
`handlerId -> \x7bacceptedCategories, acceptedUrgencies, isTerminal,
escalationTarget\x7d`. -/
structure Capability where
  acceptedCategories : List String
  acceptedUrgencies : List Urgency
  isTerminal : Bool
  escalationTarget : String
  deriving DecidableEq, Repr

/-- Modelled from the spec: §4.1's static capability table. -/
structure AgentRegistry where
  handlers : List (String × Capability)
  deriving DecidableEq, Repr

/-- Look a handler up in the registry table. -/
def AgentRegistry.lookup (reg : AgentRegistry) (h : String) :
    Option Capability :=
  (reg.handlers.find? (fun p => p.fst == h)).map Prod.snd

/-- Whether the registry knows the handler at all. -/
def AgentRegistry.knows (reg : AgentRegistry) (h : String) : Bool :=
  (reg.lookup h).isSome

/-- Modelled from the spec: the global escalation configuration — §3's
configured maximum depth and the designated terminal "final escalation"
handler of §3 invariant 3 and the glossary. -/
structure EscalationConfig where
  maxDepth : Nat
  finalHandler : String
  deriving DecidableEq, Repr

/-- Modelled from the spec: "the registry's configured escalation target
for `fromHandler`" (§4.2 check 1), falling back to the final-escalation
handler for a handler the registry does not know. -/
def AgentRegistry.escTargetOf (reg : AgentRegistry) (cfg : EscalationConfig)
    (h : String) : String :=
  match reg.lookup h with
  | some c => c.escalationTarget
  | none => cfg.finalHandler

/-- Modelled from the spec: §4.4's deterministic tie-break between two
eligible handlers — (b) the narrower accepted-urgency range wins, then
(c) lexicographic identifier order. -/
def betterCandidate (p q : String × Capability) : Bool :=
  p.snd.acceptedUrgencies.length < q.snd.acceptedUrgencies.length ||
    (p.snd.acceptedUrgencies.length == q.snd.acceptedUrgencies.length &&
      compare p.fst q.fst == Ordering.lt)

/-- Modelled from the spec: §4.1's `resolve(category, urgency,
excluding: handlerHistory) -> handlerId` — the eligible handlers are those
accepting both the category and the urgency and not excluded; `none` is the
`NoEligibleHandler` signal; ties are broken by `betterCandidate`. -/
def AgentRegistry.resolve (reg : AgentRegistry) (cat : String)
    (urg : Urgency) (excluding : List String) : Option String :=
  let eligible := reg.handlers.filter (fun p =>
    p.snd.acceptedCategories.contains cat &&
    p.snd.acceptedUrgencies.contains urg &&
    !(excluding.contains p.fst))
  match eligible with
  | [] => none
  | h :: t =>
      some (t.foldl (fun best p => if betterCandidate p best then p else best)
        h).fst

/-- Modelled from the spec: §4.2 check 1 — reject a self-loop by
substituting the registry's configured escalation target for the source
handler; the `Bool` is the `wasForced` flag. -/
def EscalationTracker.selfCheck (reg : AgentRegistry) (cfg : EscalationConfig)
    (fromHandler toHandler : String) : String × Bool :=
  if toHandler = fromHandler then (reg.escTargetOf cfg fromHandler, true)
  else (toHandler, false)

/-- Modelled from the spec: §4.2 check 2 — on violation of
`escalationCount + 1 <= maxDepth`, force the final-escalation handler. -/
def EscalationTracker.depthCheck (cfg : EscalationConfig)
    (ctx : RoutingContext) (s : String × Bool) : String × Bool :=
  if cfg.maxDepth < ctx.escalationCount + 1 then (cfg.finalHandler, true)
  else s

/-- Modelled from the spec: §4.2 check 3 — a candidate already among the
two most recent history entries is redirected to the final-escalation
handler. -/
def EscalationTracker.loopCheck (cfg : EscalationConfig)
    (ctx : RoutingContext) (s : String × Bool) : String × Bool :=
  if s.fst ∈ ctx.lastTwo then (cfg.finalHandler, true) else s

/-- Modelled from the spec: §4.2's validation of a proposed transition —
the three checks applied in order; the output is the approved (possibly
overridden) target plus the `wasForced` flag.  The tracker never mutates
the context; it only advises. -/
def EscalationTracker.checkTransition (reg : AgentRegistry)
    (cfg : EscalationConfig) (fromHandler toHandler : String)
    (ctx : RoutingContext) : String × Bool :=
  EscalationTracker.loopCheck cfg ctx
    (EscalationTracker.depthCheck cfg ctx
      (EscalationTracker.selfCheck reg cfg fromHandler toHandler))

/-- Modelled from the spec: §4.5's commit of an approved transition —
append the target to `handlerHistory` and increment `escalationCount` by
exactly one, only for a true handoff (the target differs from the
immediately preceding handler); a same-handler continuation is
escalation-neutral (§4.4, §9) and leaves the routing state unchanged. -/
def HandoffExecutor.commit (ctx : RoutingContext) (target : String) :
    RoutingContext :=
  if ctx.handlerHistory.getLast? = some target then ctx
  else
    { ctx with
      handlerHistory := ctx.handlerHistory ++ [target]
      escalationCount := ctx.escalationCount + 1 }

/-- Modelled from the spec: the derived, filtered view of a context that
§4.5 and §6 expose to the downstream handler (redaction delegated to an
external policy; here the view keeps the classification signal and only
summary information about the history). -/
structure FilteredView where
  forHandler : String
  category : String
  urgency : Urgency
  historyLength : Nat
  lastHandler : Option String
  deriving DecidableEq, Repr

/-- Modelled from the spec: §6's context filter interface
`filter(context, targetHandlerId) -> filteredContextView`.  The filtering
step is given the state-passing type a mutating implementation would have,
so that the frame property (§4.5: filtering produces a view, never a
replacement, of the context) is a statement about its first component. -/
def filterContext (ctx : RoutingContext) (targetHandler : String) :
    RoutingContext × FilteredView :=
  (ctx,
    { forHandler := targetHandler
      category := ctx.category
      urgency := ctx.urgency
      historyLength := ctx.handlerHistory.length
      lastHandler := ctx.handlerHistory.getLast? })

/-- Modelled from the spec: §4.3's enumerated orchestration modes. -/
inductive Mode where
  | deterministic
  | judgment
  | hybrid
  deriving DecidableEq, Repr

/-- Modelled from the spec: the outcome of one call to the external
judgment-based collaborator (§6) — a proposed handler identifier, a
timeout, or a failure.  The core treats it as an opaque input. -/
inductive CollabOutcome where
  | proposed (h : String)
  | timeout
  | failure
  deriving DecidableEq, Repr

/-- Modelled from the spec: §6's classifier output
`\x7bcategory, urgency, confidence\x7d` (confidence in percent). -/
structure ClassifierOutput where
  category : String
  urgency : Urgency
  confidence : Nat
  deriving DecidableEq, Repr

/-- Modelled from the spec: §4.3's per-mode selection of the next target
handler.  Deterministic mode resolves through the registry, excluding the
history; judgment mode accepts the collaborator's proposal only when the
registry knows it (the proposal is advisory, never authoritative); hybrid
mode attempts judgment first and falls back to deterministic mode on
collaborator error, timeout, or a proposal the registry does not know.
`none` is the `NoEligibleHandler` / `Failed(NoRoute)` outcome. -/
def StrategySelector.selectTarget (reg : AgentRegistry)
    (ctx : RoutingContext) (sig : ClassifierOutput) (mode : Mode)
    (collab : CollabOutcome) : Option String :=
  match mode with
  | Mode.deterministic => reg.resolve sig.category sig.urgency ctx.handlerHistory
  | Mode.judgment =>
      match collab with
      | CollabOutcome.proposed h => if reg.knows h then some h else none
      | _ => none
  | Mode.hybrid =>
      match collab with
      | CollabOutcome.proposed h =>
          if reg.knows h then some h
          else reg.resolve sig.category sig.urgency ctx.handlerHistory
      | _ => reg.resolve sig.category sig.urgency ctx.handlerHistory

/-- Modelled from the spec: §4.3's requirement that selection have no side
effects is made checkable by giving the selector the state-passing type a
side-effecting implementation would have: it returns the decision together
with the context it leaves behind. -/
def StrategySelector.selectRun (reg : AgentRegistry) (ctx : RoutingContext)
    (sig : ClassifierOutput) (mode : Mode) (collab : CollabOutcome) :
    Option String × RoutingContext :=
  (StrategySelector.selectTarget reg ctx sig mode collab, ctx)

/-- Modelled from the spec: §7's classification of a judgment-based
routing cycle that cannot use the collaborator's answer — a timeout, an
error, or a proposal naming a handler absent from the registry. -/
def collabUnusable (reg : AgentRegistry) (c : CollabOutcome) : Prop :=
  match c with
  | CollabOutcome.proposed h => ¬ reg.knows h = true
  | CollabOutcome.timeout => True
  | CollabOutcome.failure => True

instance (reg : AgentRegistry) (c : CollabOutcome) :
    Decidable (collabUnusable reg c) := by
  unfold collabUnusable
  match c with
  | CollabOutcome.proposed h => exact inferInstance
  | CollabOutcome.timeout => exact inferInstance
  | CollabOutcome.failure => exact inferInstance

/-- Invariant 1 of §3: `escalationCount == len(handlerHistory) - 1`.
Stated over the integers, as in the Python source, so that an empty
history cannot satisfy it vacuously through natural-number truncation. -/
def depthInvariant (ctx : RoutingContext) : Prop :=
  (ctx.escalationCount : Int) = (ctx.handlerHistory.length : Int) - 1

instance (ctx : RoutingContext) : Decidable (depthInvariant ctx) := by
  unfold depthInvariant; exact inferInstance

/-- Executable check that no two consecutive entries of a list are
identical. -/
def noAdjDupB : List String → Bool
  | [] => true
  | [_] => true
  | a :: b :: t => (a != b) && noAdjDupB (b :: t)

/-- Invariant 2 of §3: no two consecutive entries of `handlerHistory` are
identical. -/
def noAdjacentDup (l : List String) : Prop :=
  noAdjDupB l = true

instance (l : List String) : Decidable (noAdjacentDup l) :=
  inferInstanceAs (Decidable (noAdjDupB l = true))

/-! ### Concrete fixtures used by counterexamples and witnesses -/

/-- A small helpdesk-style registry fixture: two specialists with distinct
per-handler escalation targets. -/
def regFix : AgentRegistry :=
  { handlers :=
      [("it-helpdesk",
        { acceptedCategories := ["technical-issue"]
          acceptedUrgencies := [Urgency.high, Urgency.critical]
          isTerminal := false
          escalationTarget := "it-lead" }),
       ("it-lead",
        { acceptedCategories := ["technical-issue"]
          acceptedUrgencies := [Urgency.critical]
          isTerminal := false
          escalationTarget := "student-affairs" })] }

/-- An escalation configuration fixture with depth bound 3 and the
student-affairs agent as final-escalation handler. -/
def cfgFix : EscalationConfig :=
  { maxDepth := 3, finalHandler := "student-affairs" }

/-- A context fixture sitting exactly at the boundary
`escalationCount + 1 == maxDepth` of `cfgFix`. -/
def ctxBoundary : RoutingContext :=
  { category := "technical-issue"
    urgency := Urgency.critical
    escalationCount := 2
    handlerHistory := ["general-intake", "it-helpdesk", "it-lead"]
    resolutionAttempts := []
    feedback := none }

/-- A context fixture two handlers deep, used for the self-proposal
counterexample. -/
def ctxTwoDeep : RoutingContext :=
  { category := "technical-issue"
    urgency := Urgency.critical
    escalationCount := 1
    handlerHistory := ["general-intake", "it-helpdesk"]
    resolutionAttempts := []
    feedback := none }

/-- A context fixture past the depth bound of `cfgFix`. -/
def ctxOverDepth : RoutingContext :=
  { category := "technical-issue"
    urgency := Urgency.critical
    escalationCount := 3
    handlerHistory :=
      ["general-intake", "it-helpdesk", "it-lead", "student-affairs"]
    resolutionAttempts := []
    feedback := none }

/-- A freshly created context fixture, one handler deep. -/
def ctxIntakeFix : RoutingContext :=
  RoutingContext.intake "technical-issue" Urgency.critical "general-intake"

/-- A classifier-output fixture matching `regFix`. -/
def sigFix : ClassifierOutput :=
  { category := "technical-issue", urgency := Urgency.critical,
    confidence := 95 }

/-- An `AdvancedContext` fixture with two queued tasks. -/
def advFix : AdvancedContext :=
  { userProfiles := [("name", "Zohaib")]
    conversationMemory := ["fact-1"]
    taskQueue := ["ai-project", "email-professor"]
    completedTasks := [] }

/-! ## Theorems -/

/-- Helper: appending one element and then taking the tail commutes with
taking the tail first, for a non-empty list. -/
theorem tail_append_singleton {α : Type} (l : List α) (m : α) (h : l ≠ []) :
    (l ++ [m]).tail = l.tail ++ [m] := by
  cases l with
  | nil => exact absurd rfl h
  | cons a t => simp

/-- Helper: `add_memory` keeps the conversation memory within ten entries
whenever it was within ten entries before. -/
theorem add_memory_length_le (s : AdvancedContext) (m : String)
    (hs : s.conversationMemory.length ≤ 10) :
    (s.add_memory m).conversationMemory.length ≤ 10 := by
  unfold AdvancedContext.add_memory
  split_ifs with h
  · simp only [List.length_tail, List.length_append, List.length_cons,
      List.length_nil]
    omega
  · simp only [List.length_append, List.length_cons, List.length_nil] at h ⊢
    omega

/-- Helper: every tool operation keeps the conversation memory within ten
entries. -/
theorem applyOp_memory_le (s : AdvancedContext) (op : AdvOp)
    (hs : s.conversationMemory.length ≤ 10) :
    (s.applyOp op).conversationMemory.length ≤ 10 := by
  cases op with
  | addMemory m => exact add_memory_length_le s m hs
  | addTask t => simpa [AdvancedContext.applyOp, AdvancedContext.add_task]
      using hs
  | completeTask t =>
      show (s.complete_task t).snd.conversationMemory.length ≤ 10
      unfold AdvancedContext.complete_task
      split_ifs <;> simpa using hs
  | updateProfile k v =>
      show (s.update_profile k v).conversationMemory.length ≤ 10
      unfold AdvancedContext.update_profile
      split_ifs <;> simpa using hs

/-- Helper: a whole operation sequence keeps the conversation memory
within ten entries. -/
theorem applyOps_memory_le (ops : List AdvOp) (s : AdvancedContext)
    (hs : s.conversationMemory.length ≤ 10) :
    (s.applyOps ops).conversationMemory.length ≤ 10 := by
  induction ops generalizing s with
  | nil => simpa [AdvancedContext.applyOps] using hs
  | cons op rest ih =>
      have h1 := applyOp_memory_le s op hs
      simpa [AdvancedContext.applyOps, List.foldl_cons]
        using ih (s.applyOp op) h1

/-- Claim C9: for every `AdvancedContext` reachable from the initial state
by any sequence of tool operations, the conversation memory holds at most
ten entries; moreover `add_memory` on a reachable state appends the new
entry and, exactly when the ten-entry capacity is already full, drops the
oldest entry while preserving the relative order of the rest. -/
theorem advanced_memory_bounded :
    (∀ ops : List AdvOp,
      (AdvancedContext.init.applyOps ops).conversationMemory.length ≤ 10) ∧
    (∀ (ops : List AdvOp) (m : String),
      ((AdvancedContext.init.applyOps ops).add_memory m).conversationMemory =
        if (AdvancedContext.init.applyOps ops).conversationMemory.length < 10
        then (AdvancedContext.init.applyOps ops).conversationMemory ++ [m]
        else (AdvancedContext.init.applyOps ops).conversationMemory.tail
          ++ [m]) := by
  have hinit : AdvancedContext.init.conversationMemory.length ≤ 10 := by
    simp [AdvancedContext.init]
  constructor
  · intro ops
    exact applyOps_memory_le ops _ hinit
  · intro ops m
    have hs := applyOps_memory_le ops AdvancedContext.init hinit
    set s := AdvancedContext.init.applyOps ops with hsdef
    unfold AdvancedContext.add_memory
    split_ifs with h1 h2 h2
    · exfalso
      simp only [List.length_append, List.length_cons, List.length_nil] at h1
      omega
    · have hne : s.conversationMemory ≠ [] := by
        intro hnil
        rw [hnil] at h1
        simp at h1
      simp [tail_append_singleton _ _ hne]
    · simp
    · exfalso
      simp only [List.length_append, List.length_cons, List.length_nil] at h1
      omega

/-- Claim C10: `complete_task` returns `True` exactly when the task is in
the queue; on success it removes the first occurrence of the task from the
queue and appends the task to the completed list, and on failure it leaves
the context unchanged — for both the `SmartLifeContext` and the
`AdvancedContext` implementation. -/
theorem complete_task_spec (s : AdvancedContext) (c : SmartLifeContext)
    (task : String) (now : Nat) :
    ((s.complete_task task).fst = true ↔ task ∈ s.taskQueue) ∧
    (task ∈ s.taskQueue →
      ∃ l1 l2, task ∉ l1 ∧ s.taskQueue = l1 ++ task :: l2 ∧
        (s.complete_task task).snd.taskQueue = l1 ++ l2 ∧
        (s.complete_task task).snd.completedTasks =
          s.completedTasks ++ [task] ∧
        (s.complete_task task).snd.conversationMemory =
          s.conversationMemory) ∧
    (task ∉ s.taskQueue → (s.complete_task task).snd = s) ∧
    ((c.complete_task task now).fst = true ↔ task ∈ c.taskQueue) ∧
    (task ∈ c.taskQueue →
      (c.complete_task task now).snd.taskQueue = c.taskQueue.erase task ∧
      (c.complete_task task now).snd.completedTasks =
        c.completedTasks ++ [task]) ∧
    (task ∉ c.taskQueue → (c.complete_task task now).snd = c) := by
  refine ⟨?_, ?_, ?_, ?_, ?_, ?_⟩
  · unfold AdvancedContext.complete_task
    split_ifs with h <;> simp [h]
  · intro hmem
    obtain ⟨l1, l2, hnot, heq, herase⟩ := List.exists_erase_eq hmem
    refine ⟨l1, l2, hnot, heq, ?_, ?_, ?_⟩ <;>
      simp [AdvancedContext.complete_task, if_pos hmem, herase]
  · intro hmem
    simp [AdvancedContext.complete_task, if_neg hmem]
  · unfold SmartLifeContext.complete_task
    split_ifs with h <;> simp [h]
  · intro hmem
    constructor <;> simp [SmartLifeContext.complete_task, if_pos hmem]
  · intro hmem
    simp [SmartLifeContext.complete_task, if_neg hmem]

/-- Witness for C10: completing a queued task on the fixture removes it
from the queue and records it as completed. -/
theorem complete_task_spec_witness :
    ("ai-project" ∈ advFix.taskQueue) ∧
    (advFix.complete_task "ai-project").fst = true ∧
    (advFix.complete_task "ai-project").snd.taskQueue =
      ["email-professor"] ∧
    (advFix.complete_task "ai-project").snd.completedTasks =
      ["ai-project"] :=
  ⟨by decide,
   (complete_task_spec advFix (SmartLifeContext.init 0) "ai-project" 0).1.mpr
     (by decide),
   by decide, by decide⟩

/-- Claim C1: the invariant `escalationCount == len(handlerHistory) - 1`
holds at intake (the first handler's assignment contributes no escalation)
and is preserved by every committed handoff transition: it holds after the
commit whenever it held before. -/
theorem commit_preserves_depth_invariant :
    (∀ (cat : String) (urg : Urgency) (firstHandler : String),
      depthInvariant (RoutingContext.intake cat urg firstHandler)) ∧
    (∀ (ctx : RoutingContext) (target : String),
      depthInvariant ctx →
        depthInvariant (HandoffExecutor.commit ctx target)) := by
  constructor
  · intro cat urg firstHandler
    simp [depthInvariant, RoutingContext.intake]
  · intro ctx target hinv
    unfold HandoffExecutor.commit
    split_ifs with h
    · exact hinv
    · unfold depthInvariant at hinv ⊢
      simp only [List.length_append, List.length_cons, List.length_nil]
      push_cast at hinv ⊢
      omega

/-- Witness for C1: the two-deep fixture satisfies the invariant, and so
does the result of committing a transfer to the IT lead on it. -/
theorem commit_preserves_depth_invariant_witness :
    depthInvariant ctxTwoDeep ∧
    depthInvariant (HandoffExecutor.commit ctxTwoDeep "it-lead") :=
  ⟨by decide,
   commit_preserves_depth_invariant.2 ctxTwoDeep "it-lead" (by decide)⟩

/-- Helper: the executable adjacent-duplicate check agrees with the
`List.Chain'` formulation of the loop-free property. -/
theorem noAdjacentDup_iff_chain (l : List String) :
    noAdjacentDup l ↔ List.Chain' (fun a b => a ≠ b) l := by
  unfold noAdjacentDup
  induction l with
  | nil => simp [noAdjDupB]
  | cons a t ih =>
      cases t with
      | nil => simp [noAdjDupB]
      | cons b t2 =>
          rw [List.chain'_cons, ← ih]
          simp [noAdjDupB, Bool.and_eq_true, bne_iff_ne]

/-- Helper: appending an element that differs from the last entry
preserves the adjacent-duplicate-free property. -/
theorem noAdjDupB_append_singleton (l : List String) (x : String)
    (hl : noAdjDupB l = true) (hx : l.getLast? ≠ some x) :
    noAdjDupB (l ++ [x]) = true := by
  induction l with
  | nil => rfl
  | cons a t ih =>
      cases t with
      | nil =>
          have hax : a ≠ x := by
            intro heq
            exact hx (by simp [heq])
          simp [noAdjDupB, bne_iff_ne, hax]
      | cons b t2 =>
          rw [List.cons_append]
          have hl2 : (a != b) = true ∧ noAdjDupB (b :: t2) = true := by
            simpa [noAdjDupB, Bool.and_eq_true] using hl
          have hx2 : (b :: t2).getLast? ≠ some x := by
            intro heq
            exact hx (by simpa [List.getLast?_cons_cons] using heq)
          have := ih hl2.2 hx2
          rw [List.cons_append] at this
          simp [noAdjDupB, Bool.and_eq_true, hl2.1, this]

/-- Claim C2: the handler history has no two equal adjacent entries at
intake, and the only operation that appends to the handler history — a
committed handoff — preserves that property, because it appends only a
target that differs from the immediately preceding handler. -/
theorem commit_preserves_no_adjacent_dup :
    (∀ (cat : String) (urg : Urgency) (firstHandler : String),
      noAdjacentDup (RoutingContext.intake cat urg firstHandler).handlerHistory) ∧
    (∀ (ctx : RoutingContext) (target : String),
      noAdjacentDup ctx.handlerHistory →
        noAdjacentDup (HandoffExecutor.commit ctx target).handlerHistory) := by
  constructor
  · intro cat urg firstHandler
    simp [noAdjacentDup, noAdjDupB, RoutingContext.intake]
  · intro ctx target hctx
    unfold HandoffExecutor.commit
    split_ifs with h
    · exact hctx
    · exact noAdjDupB_append_singleton ctx.handlerHistory target hctx h

/-- Witness for C2: the two-deep fixture is loop-free and stays loop-free
after committing a transfer to the IT lead. -/
theorem commit_preserves_no_adjacent_dup_witness :
    noAdjacentDup ctxTwoDeep.handlerHistory ∧
    noAdjacentDup (HandoffExecutor.commit ctxTwoDeep "it-lead").handlerHistory :=
  ⟨by decide,
   commit_preserves_no_adjacent_dup.2 ctxTwoDeep "it-lead" (by decide)⟩

/-- Counterexample for C3: on a context sitting exactly at
`escalationCount + 1 == maxDepth`, the tracker's depth check (spec §4.2:
violation only when `escalationCount + 1 <= maxDepth` fails) passes, so a
fresh proposed target goes through unchanged with `wasForced = false` —
not to the final-escalation handler as the claim states. -/
theorem depth_boundary_counterexample :
    ctxBoundary.escalationCount + 1 = cfgFix.maxDepth ∧
    EscalationTracker.checkTransition regFix cfgFix "it-lead" "registrar"
      ctxBoundary = ("registrar", false) ∧
    ¬ (("registrar", false) =
        (cfgFix.finalHandler, true) : Prop) := by
  refine ⟨by decide, by decide, by decide⟩

/-- Claim C3 (amended): when `escalationCount + 1` exceeds `maxDepth`
(equivalently `escalationCount >= maxDepth`), the tracker's depth check
overrides the proposed target to the designated final-escalation handler
regardless of category match, reporting `wasForced = true`; at the exact
boundary `escalationCount + 1 == maxDepth` the proposal passes the depth
check unchanged. -/
theorem depth_check_forces_final (reg : AgentRegistry)
    (cfg : EscalationConfig) (fromHandler toHandler : String)
    (ctx : RoutingContext) (h : cfg.maxDepth < ctx.escalationCount + 1) :
    EscalationTracker.checkTransition reg cfg fromHandler toHandler ctx =
      (cfg.finalHandler, true) := by
  unfold EscalationTracker.checkTransition EscalationTracker.loopCheck
    EscalationTracker.depthCheck
  rw [if_pos h]
  split_ifs <;> rfl

/-- Witness for C3 (amended): on the over-depth fixture the tracker forces
the final-escalation handler. -/
theorem depth_check_forces_final_witness :
    cfgFix.maxDepth < ctxOverDepth.escalationCount + 1 ∧
    EscalationTracker.checkTransition regFix cfgFix "student-affairs"
      "it-helpdesk" ctxOverDepth = (cfgFix.finalHandler, true) :=
  ⟨by decide,
   depth_check_forces_final regFix cfgFix "student-affairs" "it-helpdesk"
     ctxOverDepth (by decide)⟩

/-- Claim C4: a committed transition appends the target to the handler
history and increments the escalation count by exactly one, if and only if
the target differs from the immediately preceding handler; a same-handler
continuation is escalation-neutral and leaves the routing context
entirely unchanged. -/
theorem commit_escalation_neutral (ctx : RoutingContext) (target : String) :
    (ctx.handlerHistory.getLast? ≠ some target →
      (HandoffExecutor.commit ctx target).handlerHistory =
        ctx.handlerHistory ++ [target] ∧
      (HandoffExecutor.commit ctx target).escalationCount =
        ctx.escalationCount + 1) ∧
    (ctx.handlerHistory.getLast? = some target →
      HandoffExecutor.commit ctx target = ctx) ∧
    ((HandoffExecutor.commit ctx target).escalationCount =
        ctx.escalationCount + 1 ↔
      ctx.handlerHistory.getLast? ≠ some target) ∧
    ((HandoffExecutor.commit ctx target).handlerHistory.length =
        ctx.handlerHistory.length + 1 ↔
      ctx.handlerHistory.getLast? ≠ some target) := by
  unfold HandoffExecutor.commit
  split_ifs with h
  · refine ⟨fun hne => absurd h hne, fun _ => rfl, ?_, ?_⟩ <;>
      simp [h]
  · refine ⟨fun _ => ⟨rfl, rfl⟩, fun heq => absurd heq h, ?_, ?_⟩ <;>
      simp [h, List.length_append]

/-- Witness for C4: committing a transfer to a new handler on the
two-deep fixture appends it and increments the count. -/
theorem commit_escalation_neutral_witness :
    ctxTwoDeep.handlerHistory.getLast? ≠ some "it-lead" ∧
    ((HandoffExecutor.commit ctxTwoDeep "it-lead").handlerHistory =
      ctxTwoDeep.handlerHistory ++ ["it-lead"] ∧
    (HandoffExecutor.commit ctxTwoDeep "it-lead").escalationCount =
      ctxTwoDeep.escalationCount + 1) :=
  ⟨by decide, (commit_escalation_neutral ctxTwoDeep "it-lead").1 (by decide)⟩

/-- Claim C5: strategy selection is deterministic and side-effect free —
run with the state-passing type a side-effecting implementation would
have, it returns the context unchanged, and re-running it on the context
the first run left behind, with identical
`(context, classifierOutput, configuredMode)` inputs and the same opaque
collaborator result, yields the same target handler. -/
theorem strategy_selector_deterministic :
    ∀ (reg : AgentRegistry) (ctx : RoutingContext) (sig : ClassifierOutput)
      (mode : Mode) (collab : CollabOutcome),
      (StrategySelector.selectRun reg ctx sig mode collab).snd = ctx ∧
      (StrategySelector.selectRun reg
          (StrategySelector.selectRun reg ctx sig mode collab).snd
          sig mode collab).fst =
        (StrategySelector.selectRun reg ctx sig mode collab).fst := by
  intro reg ctx sig mode collab
  exact ⟨rfl, rfl⟩

/-- Claim C6: in hybrid mode, whenever the judgment-based collaborator
times out, errors, or proposes a handler the registry does not know, the
routing cycle produces exactly the deterministic-mode decision, and the
cycle fails (yields no route) precisely when deterministic resolution
itself signals `NoEligibleHandler`; the cycle is a total function, so the
conversation never remains in the Routing state indefinitely. -/
theorem hybrid_fallback_deterministic (reg : AgentRegistry)
    (ctx : RoutingContext) (sig : ClassifierOutput) (collab : CollabOutcome)
    (h : collabUnusable reg collab) :
    StrategySelector.selectTarget reg ctx sig Mode.hybrid collab =
      StrategySelector.selectTarget reg ctx sig Mode.deterministic collab ∧
    (StrategySelector.selectTarget reg ctx sig Mode.hybrid collab = none ↔
      reg.resolve sig.category sig.urgency ctx.handlerHistory = none) := by
  cases collab with
  | proposed p =>
      have hb : reg.knows p = false := by
        simp only [collabUnusable] at h
        exact eq_false_of_ne_true h
      simp [StrategySelector.selectTarget, hb]
  | timeout => simp [StrategySelector.selectTarget]
  | failure => simp [StrategySelector.selectTarget]

/-- Witness for C6: a collaborator timeout at intake on the fixture
registry falls back to the deterministic decision. -/
theorem hybrid_fallback_deterministic_witness :
    collabUnusable regFix CollabOutcome.timeout ∧
    StrategySelector.selectTarget regFix ctxIntakeFix sigFix Mode.hybrid
        CollabOutcome.timeout =
      StrategySelector.selectTarget regFix ctxIntakeFix sigFix
        Mode.deterministic CollabOutcome.timeout :=
  ⟨by decide,
   (hybrid_fallback_deterministic regFix ctxIntakeFix sigFix
     CollabOutcome.timeout (by decide)).1⟩

/-- Claim C7: the context-filtering step of a handoff leaves the
unfiltered routing context unchanged — both on an arbitrary context and
on the context a commit just produced — and only computes a derived view
for the downstream handler. -/
theorem filter_leaves_context_unchanged :
    ∀ (ctx : RoutingContext) (target : String),
      (filterContext ctx target).fst = ctx ∧
      (filterContext (HandoffExecutor.commit ctx target) target).fst =
        HandoffExecutor.commit ctx target := by
  intro ctx target
  exact ⟨rfl, rfl⟩

/-- Counterexample for C8: a self-proposal whose target is the current
handler (and hence one of the two most recent history entries) is handled
by the tracker's first check, which substitutes the registry's per-handler
escalation target — here the IT lead, not the final-escalation handler. -/
theorem short_cycle_counterexample :
    "it-helpdesk" ∈ ctxTwoDeep.lastTwo ∧
    EscalationTracker.checkTransition regFix cfgFix "it-helpdesk"
      "it-helpdesk" ctxTwoDeep = ("it-lead", true) ∧
    ¬ ("it-lead" = cfgFix.finalHandler) := by
  refine ⟨by decide, by decide, by decide⟩

/-- Claim C8 (amended): every proposed transition towards a handler that
differs from the source handler but equals one of the two most recent
entries of the handler history is rejected by the tracker and redirected
to the final-escalation handler with `wasForced = true` (a self-proposal
is instead handled by the self-loop check, which substitutes the
registry's per-handler escalation target). -/
theorem short_cycle_redirects_to_final (reg : AgentRegistry)
    (cfg : EscalationConfig) (fromHandler toHandler : String)
    (ctx : RoutingContext) (hne : toHandler ≠ fromHandler)
    (hmem : toHandler ∈ ctx.lastTwo) :
    EscalationTracker.checkTransition reg cfg fromHandler toHandler ctx =
      (cfg.finalHandler, true) := by
  unfold EscalationTracker.checkTransition EscalationTracker.loopCheck
    EscalationTracker.depthCheck EscalationTracker.selfCheck
  rw [if_neg hne]
  split_ifs <;> rfl

/-- Witness for C8 (amended): routing the two-deep fixture back to the
intake handler (an A→B→A cycle) is redirected to the final-escalation
handler. -/
theorem short_cycle_redirects_to_final_witness :
    ("general-intake" ≠ "it-helpdesk") ∧
    "general-intake" ∈ ctxTwoDeep.lastTwo ∧
    EscalationTracker.checkTransition regFix cfgFix "it-helpdesk"
      "general-intake" ctxTwoDeep = (cfgFix.finalHandler, true) :=
  ⟨by decide, by decide,
   short_cycle_redirects_to_final regFix cfgFix "it-helpdesk"
     "general-intake" ctxTwoDeep (by decide) (by decide)⟩
